import Mathlib

/-!
Verification of the contacts REST service (Express + MongoDB), shallowly
embedded in Lean. Documents are association lists of JSON values; the
database state carries the contacts collection, the counters collection
and a fresh-object-id source. Each route handler of src/routes/contacts.js
is translated to a pure state-passing function.
-/

set_option linter.unusedVariables false

/-- JSON-ish values stored in documents: strings, integer numbers, booleans,
null, and database-internal object identifiers. -/
inductive JsonVal where
  | str (s : String)
  | num (n : Int)
  | bool (b : Bool)
  | null
  | oid (n : Nat)
deriving DecidableEq, Repr

/-- A document is an association list from field names to values. -/
abbrev Doc := List (String × JsonVal)

/-- Reads a field of a document (first occurrence of the key). -/
def docGet : Doc → String → Option JsonVal
  | [], _ => none
  | (k', v) :: rest, k => if k' == k then some v else docGet rest k

/-- Sets a field: replaces the first occurrence of the key or appends. -/
def docSet : Doc → String → JsonVal → Doc
  | [], k, v => [(k, v)]
  | (k', v') :: rest, k, v =>
      if k' == k then (k, v) :: rest else (k', v') :: docSet rest k v

/-- Removes every occurrence of a key (JS delete on an object key). -/
def removeKey (d : Doc) (k : String) : Doc :=
  d.filter (fun p => p.1 != k)

/-- Applies a MongoDB $set: every field of the update document is written
into the target document, left to right. -/
def setFields (d : Doc) (u : Doc) : Doc :=
  u.foldl (fun acc p => docSet acc p.1 p.2) d

/-- JavaScript truthiness of a JSON value: empty string, zero, false and
null are falsy. -/
def jsTruthy : JsonVal → Bool
  | .str s => !(s == "")
  | .num n => !(n == 0)
  | .bool b => b
  | .null => false
  | .oid _ => true

/-- Truthiness of a possibly-absent value: an absent field destructures to
undefined, which is falsy. -/
def truthyOpt : Option JsonVal → Bool
  | none => false
  | some v => jsTruthy v

/-! JS parseInt, modelled on lists of characters: skip whitespace, read an
optional sign, then either a 0x/0X hexadecimal literal or a run of decimal
digits; no digits means NaN, modelled as none. -/

/-- Whitespace characters skipped by parseInt. -/
def isWS (c : Char) : Bool :=
  c == ' ' || c == '\t' || c == '\n' || c == '\r' || c == '\x0b' || c == '\x0c'

/-- Decimal digit test. -/
def isDigitC (c : Char) : Bool :=
  48 ≤ c.toNat && c.toNat ≤ 57

/-- Hexadecimal digit test. -/
def isHexC (c : Char) : Bool :=
  isDigitC c || (97 ≤ c.toNat && c.toNat ≤ 102) || (65 ≤ c.toNat && c.toNat ≤ 70)

/-- Numeric value of a hexadecimal digit character. -/
def hexVal (c : Char) : Nat :=
  if isDigitC c then c.toNat - 48
  else if 97 ≤ c.toNat then c.toNat - 87
  else c.toNat - 55

/-- Value of a run of decimal digit characters, most significant first. -/
def digitsToNat (ds : List Char) : Nat :=
  ds.foldl (fun a c => a * 10 + (c.toNat - 48)) 0

/-- Value of a run of hexadecimal digit characters, most significant first. -/
def hexDigitsToNat (ds : List Char) : Nat :=
  ds.foldl (fun a c => a * 16 + hexVal c) 0

/-- Reads the longest decimal digit prefix; NaN (none) when empty. -/
def parseDecAll (l : List Char) : Option Nat :=
  let ds := l.takeWhile isDigitC
  if ds.isEmpty then none else some (digitsToNat ds)

/-- Reads the longest hexadecimal digit prefix; NaN (none) when empty. -/
def parseHexAll (l : List Char) : Option Nat :=
  let ds := l.takeWhile isHexC
  if ds.isEmpty then none else some (hexDigitsToNat ds)

/-- Unsigned part of parseInt: a 0x/0X prefix switches to hexadecimal. -/
def parseUnsigned (l : List Char) : Option Nat :=
  match l with
  | '0' :: c :: rest =>
      if c == 'x' || c == 'X' then parseHexAll rest else parseDecAll l
  | _ => parseDecAll l

/-- JS parseInt with no radix argument; none models NaN. -/
def parseIntJS (s : String) : Option Int :=
  match s.data.dropWhile isWS with
  | '-' :: rest => (parseUnsigned rest).map (fun n => -(n : Int))
  | '+' :: rest => (parseUnsigned rest).map (fun n => (n : Int))
  | l => (parseUnsigned l).map (fun n => (n : Int))

/-! The database state and driver primitives. -/

/-- State of the database: the contacts collection in insertion order, the
counters collection as an association list from counter name to value, and
the source of fresh internal object ids. -/
structure DB where
  contacts : List Doc
  counters : List (String × Int)
  nextOid : Nat
deriving DecidableEq, Repr

/-- The current value of a named counter document (0 when absent). -/
def counterValue : List (String × Int) → String → Int
  | [], _ => 0
  | (k, v) :: rest, name => if k == name then v else counterValue rest name

/-- findOneAndUpdate with $inc and upsert on the counters collection:
increments the named counter in place, inserting it at 1 when absent. -/
def bumpCounter : List (String × Int) → String → List (String × Int)
  | [], name => [(name, 1)]
  | (k, v) :: rest, name =>
      if k == name then (k, v + 1) :: rest else (k, v) :: bumpCounter rest name

/-- getNextSequence of src/routes/contacts.js: atomically increments the
counter document keyed by the collection name and returns the new value. -/
def getNextSequence (seqName : String) (db : DB) : Int × DB :=
  let counters := bumpCounter db.counters seqName
  (counterValue counters seqName, { db with counters := counters })

/-- The query predicate of findOne with filter id = n. -/
def matchesId (n : Int) (d : Doc) : Bool :=
  docGet d "id" == some (.num n)

/-- updateOne: rewrites the first document satisfying the filter. -/
def updateFirst (p : Doc → Bool) (f : Doc → Doc) : List Doc → List Doc
  | [] => []
  | d :: rest => if p d then f d :: rest else d :: updateFirst p f rest

/-- deleteOne: removes the first document satisfying the filter. -/
def deleteFirst (p : Doc → Bool) : List Doc → List Doc
  | [] => []
  | d :: rest => if p d then rest else d :: deleteFirst p rest

/-! HTTP responses. -/

/-- Body of a JSON response: an object, an array of documents, or null. -/
inductive RespBody where
  | obj (d : Doc)
  | arr (l : List Doc)
  | jnull
deriving DecidableEq, Repr

/-- An HTTP response: status code and JSON body. -/
structure Response where
  status : Nat
  body : RespBody
deriving DecidableEq, Repr

/-- The error body shape used by every handler. -/
def errObj (s : String) : RespBody :=
  .obj [("error", .str s)]

/-! The five route handlers, translated from src/routes/contacts.js. -/

/-- router.get on the collection root: returns every contact. -/
def getAllContacts (db : DB) : Response × DB :=
  (⟨200, .arr db.contacts⟩, db)

/-- router.get on the id path: parseInt the id, 400 on NaN, findOne by id,
404 when absent, otherwise 200 with the contact. -/
def getContactById (idStr : String) (db : DB) : Response × DB :=
  match parseIntJS idStr with
  | none => (⟨400, errObj "Invalid ID"⟩, db)
  | some idNum =>
    match db.contacts.find? (matchesId idNum) with
    | none => (⟨404, errObj "Contact not found"⟩, db)
    | some c => (⟨200, .obj c⟩, db)

/-- The five required fields of the create handler. -/
def requiredFields : List String :=
  ["firstName", "lastName", "email", "favoriteColor", "birthday"]

/-- router.post: destructure the five fields, reject when any is falsy,
otherwise draw the next sequence id, insert the document (the driver adds
an internal object id) and answer 201 with the id. -/
def createContact (body : Doc) (db : DB) : Response × DB :=
  let firstName := docGet body "firstName"
  let lastName := docGet body "lastName"
  let email := docGet body "email"
  let favoriteColor := docGet body "favoriteColor"
  let birthday := docGet body "birthday"
  if !truthyOpt firstName || !truthyOpt lastName || !truthyOpt email
      || !truthyOpt favoriteColor || !truthyOpt birthday then
    (⟨400, errObj "All fields are required"⟩, db)
  else
    let r := getNextSequence "contacts" db
    let id := r.1
    let db1 := r.2
    let contactData : Doc :=
      [("id", .num id), ("firstName", firstName.getD .null),
       ("lastName", lastName.getD .null), ("email", email.getD .null),
       ("favoriteColor", favoriteColor.getD .null),
       ("birthday", birthday.getD .null)]
    let db2 : DB :=
      { db1 with
        contacts := db1.contacts ++ [("_id", .oid db1.nextOid) :: contactData],
        nextOid := db1.nextOid + 1 }
    (⟨201, .obj [("id", .num id)]⟩, db2)

/-- The message of the FailedToParse error the MongoDB driver raises when
updateOne is given an empty $set document. -/
def emptySetMsg : String := "$set is empty. You must specify a field."

/-- router.put: parseInt the id, 400 on NaN, 404 when no contact matches,
otherwise delete the id and internal-id keys from the body and $set the
rest on the matching document; when nothing is left to set, the driver
rejects the empty $set and the catch answers 500, otherwise the handler
answers 200 with the re-fetched document. -/
def updateContact (idStr : String) (body : Doc) (db : DB) : Response × DB :=
  match parseIntJS idStr with
  | none => (⟨400, errObj "Invalid ID"⟩, db)
  | some idNum =>
    match db.contacts.find? (matchesId idNum) with
    | none => (⟨404, errObj "Contact not found"⟩, db)
    | some _ =>
      let updateData := removeKey (removeKey body "id") "_id"
      if updateData.isEmpty then
        (⟨500, errObj emptySetMsg⟩, db)
      else
        let newContacts :=
          updateFirst (matchesId idNum) (fun d => setFields d updateData) db.contacts
        let db' : DB := { db with contacts := newContacts }
        match newContacts.find? (matchesId idNum) with
        | none => (⟨200, .jnull⟩, db')
        | some updated => (⟨200, .obj updated⟩, db')

/-- router.delete: parseInt the id, 400 on NaN, deleteOne by id, 404 when
nothing was deleted, otherwise 200 with a message body. -/
def deleteContact (idStr : String) (db : DB) : Response × DB :=
  match parseIntJS idStr with
  | none => (⟨400, errObj "Invalid ID"⟩, db)
  | some idNum =>
    if db.contacts.any (matchesId idNum) then
      (⟨200, .obj [("message", .str "Contact deleted successfully")]⟩,
       { db with contacts := deleteFirst (matchesId idNum) db.contacts })
    else
      (⟨404, errObj "Contact not found"⟩, db)

/-- The try/catch wrapper of every handler: a thrown error yields 500 with
the error message, otherwise the handler's own response stands. -/
def respOf (exc : Option String) (r : Response × DB) : Response :=
  match exc with
  | some e => ⟨500, errObj e⟩
  | none => r.1

/-! Request sequences, for properties over runs of the service. -/

/-- A request to one of the five endpoints. -/
inductive Op where
  | getAll
  | getOne (idStr : String)
  | create (body : Doc)
  | update (idStr : String) (body : Doc)
  | remove (idStr : String)
deriving DecidableEq, Repr

/-- Dispatches one request to its handler. -/
def step (db : DB) : Op → Response × DB
  | .getAll => getAllContacts db
  | .getOne s => getContactById s db
  | .create b => createContact b db
  | .update s b => updateContact s b db
  | .remove s => deleteContact s db

/-- Runs a sequence of requests, collecting the responses. -/
def run (db : DB) : List Op → List Response × DB
  | [] => ([], db)
  | op :: ops =>
    let r := step db op
    let rest := run r.2 ops
    (r.1 :: rest.1, rest.2)

/-- Extracts the id of a 201 created response, none for any other response. -/
def createdId (r : Response) : Option Int :=
  match r with
  | ⟨201, .obj [("id", .num n)]⟩ => some n
  | _ => none

/-- The ids returned by the successful create requests of a run, in order. -/
def createdIds (rs : List Response) : List Int :=
  rs.filterMap createdId

/-- The empty database. -/
def emptyDB : DB := ⟨[], [], 0⟩

/-- Decimal digits of a natural number, most significant first. -/
def natToDigits (n : Nat) : List Char :=
  if h : n < 10 then [Nat.digitChar n]
  else natToDigits (n / 10) ++ [Nat.digitChar (n % 10)]
decreasing_by exact Nat.div_lt_self (by omega) (by omega)

/-- The decimal representation of an integer. -/
def intRepr (n : Int) : String :=
  if n < 0 then String.mk ('-' :: natToDigits n.natAbs)
  else String.mk (natToDigits n.toNat)

/-- A request body carrying the five required fields with truthy values. -/
def goodBody : Doc :=
  [("firstName", .str "Ada"), ("lastName", .str "Lovelace"),
   ("email", .str "ada@example.com"), ("favoriteColor", .str "green"),
   ("birthday", .str "1815-12-10")]

/-- A request body missing most of the required fields. -/
def missingBody : Doc := [("firstName", .str "Ada")]

/-- A request body with all five required fields present, one of them with
a falsy (empty string) value. -/
def badBody : Doc :=
  [("firstName", .str ""), ("lastName", .str "Lovelace"),
   ("email", .str "ada@example.com"), ("favoriteColor", .str "green"),
   ("birthday", .str "1815-12-10")]

/-- The stored document created by posting goodBody into the empty database. -/
def docOne : Doc :=
  [("_id", .oid 0), ("id", .num 1), ("firstName", .str "Ada"),
   ("lastName", .str "Lovelace"), ("email", .str "ada@example.com"),
   ("favoriteColor", .str "green"), ("birthday", .str "1815-12-10")]

/-- A database holding exactly the contact with id 1. -/
def dbOne : DB := ⟨[docOne], [("contacts", 1)], 1⟩

/-- An update body that tries to overwrite both identifiers. -/
def putBody : Doc :=
  [("id", .num 99), ("_id", .oid 7), ("email", .str "new@example.com")]

/-- An update body carrying nothing but the two identifier keys, so the
cleaned update document is empty. -/
def idOnlyBody : Doc := [("id", .num 99), ("_id", .oid 7)]

/-- The error-shape contract: a response outside the 2xx range carries a
body of the form obj [error, message-string]. -/
def errorContract (r : Response) : Prop :=
  (r.status < 200 ∨ 300 ≤ r.status) → ∃ m, r.body = errObj m

/-! Association-list lemmas. -/

theorem docGet_docSet_same (d : Doc) (k : String) (v : JsonVal) :
    docGet (docSet d k v) k = some v := by
  induction d with
  | nil => simp [docGet, docSet]
  | cons p rest ih =>
    obtain ⟨k', v'⟩ := p
    by_cases h : k' = k
    · subst h; simp [docSet, docGet]
    · simp [docSet, docGet, h, ih]

theorem docGet_docSet_ne (d : Doc) (k k' : String) (v : JsonVal)
    (h : k' ≠ k) : docGet (docSet d k v) k' = docGet d k' := by
  have h2 : k ≠ k' := Ne.symm h
  induction d with
  | nil => simp [docGet, docSet, h2]
  | cons p rest ih =>
    obtain ⟨k0, v0⟩ := p
    by_cases h0 : k0 = k
    · subst h0; simp [docSet, docGet, h2]
    · simp [docSet, docGet, h0, ih]

theorem docGet_setFields_not_mem (u : Doc) (d : Doc) (k : String)
    (h : k ∉ u.map Prod.fst) : docGet (setFields d u) k = docGet d k := by
  induction u generalizing d with
  | nil => simp [setFields]
  | cons p rest ih =>
    obtain ⟨k0, v0⟩ := p
    simp only [List.map_cons, List.mem_cons] at h
    push_neg at h
    show docGet (setFields (docSet d k0 v0) rest) k = docGet d k
    rw [ih (docSet d k0 v0) h.2, docGet_docSet_ne d k0 k v0 h.1]

theorem docGet_setFields_mem (u : Doc) (d : Doc) (k : String) (v : JsonVal)
    (hnd : (u.map Prod.fst).Nodup) (h : docGet u k = some v) :
    docGet (setFields d u) k = some v := by
  induction u generalizing d with
  | nil => simp [docGet] at h
  | cons p rest ih =>
    obtain ⟨k0, v0⟩ := p
    simp only [List.map_cons, List.nodup_cons] at hnd
    by_cases h0 : k0 = k
    · subst h0
      simp only [docGet, beq_self_eq_true, if_pos] at h
      show docGet (setFields (docSet d k0 v0) rest) k0 = some v
      rw [docGet_setFields_not_mem rest _ k0 hnd.1,
        docGet_docSet_same, h]
    · simp only [docGet, beq_iff_eq, h0, if_false] at h
      show docGet (setFields (docSet d k0 v0) rest) k = some v
      exact ih _ hnd.2 h

theorem docGet_removeKey_same (d : Doc) (k : String) :
    docGet (removeKey d k) k = none := by
  induction d with
  | nil => simp [removeKey, docGet]
  | cons p rest ih =>
    obtain ⟨k0, v0⟩ := p
    by_cases h0 : k0 = k
    · subst h0; simpa [removeKey, docGet] using ih
    · simpa [removeKey, docGet, h0] using ih

theorem docGet_removeKey_ne (d : Doc) (k k' : String) (h : k' ≠ k) :
    docGet (removeKey d k) k' = docGet d k' := by
  have h2 : k ≠ k' := Ne.symm h
  induction d with
  | nil => simp [removeKey, docGet]
  | cons p rest ih =>
    obtain ⟨k0, v0⟩ := p
    by_cases h0 : k0 = k
    · subst h0; simpa [removeKey, docGet, h2] using ih
    · by_cases h1 : k0 = k'
      · subst h1; simp [removeKey, docGet, h0]
      · simpa [removeKey, docGet, h0, h1] using ih

theorem not_mem_keys_removeKey (d : Doc) (k : String) :
    k ∉ (removeKey d k).map Prod.fst := by
  intro hmem
  rcases List.mem_map.1 hmem with ⟨p, hp, hpk⟩
  rcases List.mem_filter.1 hp with ⟨_, hne⟩
  rw [bne_iff_ne] at hne
  exact hne hpk

theorem keys_removeKey_subset (d : Doc) (k k' : String)
    (h : k' ∈ (removeKey d k).map Prod.fst) : k' ∈ d.map Prod.fst := by
  rcases List.mem_map.1 h with ⟨p, hp, hpk⟩
  exact List.mem_map.2 ⟨p, (List.mem_filter.1 hp).1, hpk⟩


/-! Counter lemmas. -/

theorem counterValue_bumpCounter (l : List (String × Int)) (name : String) :
    counterValue (bumpCounter l name) name = counterValue l name + 1 := by
  induction l with
  | nil => simp [bumpCounter, counterValue]
  | cons p rest ih =>
    obtain ⟨k, v⟩ := p
    by_cases h : k = name
    · subst h; simp [bumpCounter, counterValue]
    · simp [bumpCounter, counterValue, h, ih]

theorem counterValue_bumpCounter_ne (l : List (String × Int)) (name nm : String)
    (h : nm ≠ name) : counterValue (bumpCounter l name) nm = counterValue l nm := by
  induction l with
  | nil => simp [bumpCounter, counterValue, Ne.symm h]
  | cons p rest ih =>
    obtain ⟨k, v⟩ := p
    by_cases hk : k = name
    · subst hk; simp [bumpCounter, counterValue, Ne.symm h]
    · simp [bumpCounter, counterValue, hk, ih]

theorem getNextSequence_eq (db : DB) (name : String) :
    getNextSequence name db =
      (counterValue db.counters name + 1,
       { db with counters := bumpCounter db.counters name }) := by
  simp [getNextSequence, counterValue_bumpCounter]

/-! updateOne and deleteOne lemmas. -/

theorem find?_updateFirst (p : Doc → Bool) (f : Doc → Doc) (l : List Doc)
    (hpf : ∀ d, p d = true → p (f d) = true) :
    (updateFirst p f l).find? p = (l.find? p).map f := by
  induction l with
  | nil => simp [updateFirst]
  | cons d rest ih =>
    cases h : p d with
    | true =>
      rw [updateFirst, if_pos h, List.find?_cons_of_pos _ (hpf d h),
        List.find?_cons_of_pos _ h]
      rfl
    | false =>
      rw [updateFirst, if_neg (by simp [h]),
        List.find?_cons_of_neg _ (by simp [h]),
        List.find?_cons_of_neg _ (by simp [h]), ih]

theorem deleteFirst_of_not_any (p : Doc → Bool) (l : List Doc)
    (h : l.any p = false) : deleteFirst p l = l := by
  induction l with
  | nil => rfl
  | cons d rest ih =>
    simp only [List.any_cons, Bool.or_eq_false_iff] at h
    rw [deleteFirst, if_neg (by simp [h.1]), ih h.2]

theorem any_deleteFirst (p : Doc → Bool) (l : List Doc)
    (h : l.countP p ≤ 1) : (deleteFirst p l).any p = false := by
  induction l with
  | nil => rfl
  | cons d rest ih =>
    cases hd : p d with
    | true =>
      rw [deleteFirst, if_pos hd]
      rw [List.countP_cons_of_pos _ _ hd] at h
      have h0 : rest.countP p = 0 := by omega
      exact List.any_eq_false.2 (List.countP_eq_zero.1 h0)
    | false =>
      rw [deleteFirst, if_neg (by simp [hd])]
      rw [List.countP_cons_of_neg _ _ (by simp [hd])] at h
      simp [List.any_cons, hd, ih h]

/-! The update document of the put handler never carries the id keys. -/

theorem id_not_mem_updateData (body : Doc) :
    "id" ∉ (removeKey (removeKey body "id") "_id").map Prod.fst := by
  intro h
  exact not_mem_keys_removeKey body "id"
    (keys_removeKey_subset (removeKey body "id") "_id" "id" h)

theorem internal_id_not_mem_updateData (body : Doc) :
    "_id" ∉ (removeKey (removeKey body "id") "_id").map Prod.fst :=
  not_mem_keys_removeKey (removeKey body "id") "_id"

theorem matchesId_setFields (n : Int) (d : Doc) (u : Doc)
    (hid : "id" ∉ u.map Prod.fst) :
    matchesId n (setFields d u) = matchesId n d := by
  simp [matchesId, docGet_setFields_not_mem u d "id" hid]

/-! Digit lemmas for the parseInt roundtrip. -/

theorem digitChar_toNat (n : Nat) (h : n < 10) :
    (Nat.digitChar n).toNat = 48 + n := by
  interval_cases n <;> rfl

theorem isDigitC_digitChar (n : Nat) (h : n < 10) :
    isDigitC (Nat.digitChar n) = true := by
  simp only [isDigitC, digitChar_toNat n h, Bool.and_eq_true, decide_eq_true_eq]
  omega

theorem natToDigits_ne_nil (n : Nat) : natToDigits n ≠ [] := by
  rw [natToDigits]
  split <;> simp

theorem mem_natToDigits_isDigitC (n : Nat) :
    ∀ c ∈ natToDigits n, isDigitC c = true := by
  induction n using Nat.strong_induction_on with
  | _ n ih =>
    rw [natToDigits]
    split
    · next h =>
      intro c hc
      simp only [List.mem_singleton] at hc
      subst hc
      exact isDigitC_digitChar n h
    · next h =>
      intro c hc
      rcases List.mem_append.1 hc with hc | hc
      · exact ih (n / 10) (Nat.div_lt_self (by omega) (by omega)) c hc
      · simp only [List.mem_singleton] at hc
        subst hc
        exact isDigitC_digitChar _ (Nat.mod_lt _ (by omega))

theorem foldl_natToDigits (n : Nat) : ∀ a : Nat,
    List.foldl (fun a c => a * 10 + (c.toNat - 48)) a (natToDigits n)
      = a * 10 ^ (natToDigits n).length + n := by
  induction n using Nat.strong_induction_on with
  | _ n ih =>
    intro a
    rw [natToDigits]
    split
    · next h =>
      simp only [List.foldl_cons, List.foldl_nil, List.length_singleton,
        pow_one, digitChar_toNat n h]
      omega
    · next h =>
      rw [List.foldl_append, List.length_append,
        ih (n / 10) (Nat.div_lt_self (by omega) (by omega)) a]
      simp only [List.foldl_cons, List.foldl_nil, List.length_singleton,
        digitChar_toNat (n % 10) (Nat.mod_lt _ (by omega))]
      rw [pow_succ, ← mul_assoc]
      have hqr := Nat.div_add_mod n 10
      generalize a * 10 ^ (natToDigits (n / 10)).length = C
      omega

theorem digitsToNat_natToDigits (n : Nat) :
    digitsToNat (natToDigits n) = n := by
  have h := foldl_natToDigits n 0
  simpa [digitsToNat] using h

/-! Character classifications feeding the parseInt roundtrip. -/

theorem isWS_eq_false_of_isDigitC (c : Char) (h : isDigitC c = true) :
    isWS c = false := by
  simp only [isDigitC, Bool.and_eq_true, decide_eq_true_eq] at h
  have hne : ∀ c' : Char, c'.toNat < 48 → (c == c') = false := by
    intro c' hlt
    rw [beq_eq_false_iff_ne]
    rintro rfl
    omega
  simp only [isWS, Bool.or_eq_false_iff]
  refine ⟨⟨⟨⟨⟨?_, ?_⟩, ?_⟩, ?_⟩, ?_⟩, ?_⟩ <;> exact hne _ (by decide)

theorem not_sign_hex_of_isDigitC (c : Char) (h : isDigitC c = true) :
    (c == '-') = false ∧ (c == '+') = false ∧
      (c == 'x' || c == 'X') = false := by
  simp only [isDigitC, Bool.and_eq_true, decide_eq_true_eq] at h
  have hne : ∀ c' : Char, (c'.toNat < 48 ∨ 57 < c'.toNat) → (c == c') = false := by
    intro c' hlt
    rw [beq_eq_false_iff_ne]
    rintro rfl
    omega
  exact ⟨hne '-' (by decide), hne '+' (by decide),
    by rw [hne 'x' (by decide), hne 'X' (by decide)]; rfl⟩

theorem dropWhile_isWS_digits (l : List Char)
    (hne : l ≠ []) (hd : ∀ c ∈ l, isDigitC c = true) :
    l.dropWhile isWS = l := by
  obtain ⟨c, rest, rfl⟩ := List.exists_cons_of_ne_nil hne
  rw [List.dropWhile_cons,
    isWS_eq_false_of_isDigitC c (hd c (List.mem_cons_self c rest))]
  simp

theorem parseDecAll_digits (l : List Char)
    (hne : l ≠ []) (hd : ∀ c ∈ l, isDigitC c = true) :
    parseDecAll l = some (digitsToNat l) := by
  rw [parseDecAll, List.takeWhile_eq_self_iff.2 hd]
  simp [List.isEmpty_eq_false.2 hne]

theorem parseUnsigned_digits (l : List Char)
    (hne : l ≠ []) (hd : ∀ c ∈ l, isDigitC c = true) :
    parseUnsigned l = some (digitsToNat l) := by
  rw [parseUnsigned.eq_def]
  split
  · next c rest =>
    have hc : isDigitC c = true := hd c (by simp)
    rw [(not_sign_hex_of_isDigitC c hc).2.2, if_neg (by simp)]
    exact parseDecAll_digits _ (by simp) hd
  · exact parseDecAll_digits l hne hd

theorem parseIntJS_mk_digits (l : List Char)
    (hne : l ≠ []) (hd : ∀ c ∈ l, isDigitC c = true) :
    parseIntJS (String.mk l) = some (Int.ofNat (digitsToNat l)) := by
  have hdata : (String.mk l).data = l := rfl
  rw [parseIntJS, hdata, dropWhile_isWS_digits l hne hd]
  obtain ⟨c, rest, rfl⟩ := List.exists_cons_of_ne_nil hne
  have hc : isDigitC c = true := hd c (List.mem_cons_self c rest)
  obtain ⟨hm, hp, _⟩ := not_sign_hex_of_isDigitC c hc
  rw [beq_eq_false_iff_ne] at hm hp
  split
  · next heq => exact absurd (List.cons.injEq .. ▸ heq).1 hm
  · next heq => exact absurd (List.cons.injEq .. ▸ heq).1 hp
  · next _ _ =>
    rw [parseUnsigned_digits _ hne hd]
    rfl

theorem parseIntJS_neg_digits (l : List Char)
    (hne : l ≠ []) (hd : ∀ c ∈ l, isDigitC c = true) :
    parseIntJS (String.mk ('-' :: l)) = some (-(digitsToNat l : Int)) := by
  have hdata : (String.mk ('-' :: l)).data = '-' :: l := rfl
  have hws : isWS '-' = false := by decide
  rw [parseIntJS, hdata, List.dropWhile_cons, hws]
  simp only [Bool.false_eq_true, if_false]
  rw [parseUnsigned_digits l hne hd]
  rfl

theorem parseIntJS_intRepr (n : Int) : parseIntJS (intRepr n) = some n := by
  rw [intRepr]
  by_cases h : n < 0
  · rw [if_pos h, parseIntJS_neg_digits _ (natToDigits_ne_nil _)
      (mem_natToDigits_isDigitC _), digitsToNat_natToDigits]
    congr 1
    omega
  · rw [if_neg h, parseIntJS_mk_digits _ (natToDigits_ne_nil _)
      (mem_natToDigits_isDigitC _), digitsToNat_natToDigits]
    rw [Int.ofNat_eq_coe, Int.toNat_of_nonneg (not_lt.1 h)]

/-! Handler case analyses. -/

theorem getContactById_snd (s : String) (db : DB) :
    (getContactById s db).2 = db := by
  rw [getContactById]
  split
  · rfl
  · split <;> rfl

theorem updateContact_counters (s : String) (b : Doc) (db : DB) :
    (updateContact s b db).2.counters = db.counters := by
  rw [updateContact]
  split
  · rfl
  · split
    · rfl
    · dsimp only
      split
      · rfl
      · split <;> rfl

/-! Branch equations for the three id-indexed handlers. -/

theorem getContactById_invalid (s : String) (db : DB)
    (hp : parseIntJS s = none) :
    getContactById s db = (⟨400, errObj "Invalid ID"⟩, db) := by
  simp [getContactById, hp]

theorem getContactById_notFound (s : String) (db : DB) (n : Int)
    (hp : parseIntJS s = some n)
    (hf : db.contacts.find? (matchesId n) = none) :
    getContactById s db = (⟨404, errObj "Contact not found"⟩, db) := by
  simp [getContactById, hp, hf]

theorem getContactById_found (s : String) (db : DB) (n : Int) (c : Doc)
    (hp : parseIntJS s = some n)
    (hf : db.contacts.find? (matchesId n) = some c) :
    getContactById s db = (⟨200, .obj c⟩, db) := by
  simp [getContactById, hp, hf]

theorem updateContact_invalid (s : String) (b : Doc) (db : DB)
    (hp : parseIntJS s = none) :
    updateContact s b db = (⟨400, errObj "Invalid ID"⟩, db) := by
  simp [updateContact, hp]

theorem updateContact_notFound (s : String) (b : Doc) (db : DB) (n : Int)
    (hp : parseIntJS s = some n)
    (hf : db.contacts.find? (matchesId n) = none) :
    updateContact s b db = (⟨404, errObj "Contact not found"⟩, db) := by
  simp [updateContact, hp, hf]

theorem updateContact_emptySet (s : String) (b : Doc) (db : DB) (n : Int)
    (c : Doc) (hp : parseIntJS s = some n)
    (hf : db.contacts.find? (matchesId n) = some c)
    (he : (removeKey (removeKey b "id") "_id").isEmpty = true) :
    updateContact s b db = (⟨500, errObj emptySetMsg⟩, db) := by
  simp [updateContact, hp, hf, he]

theorem updateContact_found (s : String) (b : Doc) (db : DB) (n : Int)
    (c c2 : Doc) (hp : parseIntJS s = some n)
    (hf : db.contacts.find? (matchesId n) = some c)
    (he : (removeKey (removeKey b "id") "_id").isEmpty = false)
    (hf2 : (updateFirst (matchesId n)
        (fun d => setFields d (removeKey (removeKey b "id") "_id"))
        db.contacts).find? (matchesId n) = some c2) :
    updateContact s b db = (⟨200, .obj c2⟩,
      { db with contacts := (updateFirst (matchesId n)
          (fun d => setFields d (removeKey (removeKey b "id") "_id"))
          db.contacts) }) := by
  simp [updateContact, hp, hf, he, hf2]

theorem updateContact_found_vanished (s : String) (b : Doc) (db : DB)
    (n : Int) (c : Doc) (hp : parseIntJS s = some n)
    (hf : db.contacts.find? (matchesId n) = some c)
    (he : (removeKey (removeKey b "id") "_id").isEmpty = false)
    (hf2 : (updateFirst (matchesId n)
        (fun d => setFields d (removeKey (removeKey b "id") "_id"))
        db.contacts).find? (matchesId n) = none) :
    updateContact s b db = (⟨200, .jnull⟩,
      { db with contacts := (updateFirst (matchesId n)
          (fun d => setFields d (removeKey (removeKey b "id") "_id"))
          db.contacts) }) := by
  simp [updateContact, hp, hf, he, hf2]

theorem deleteContact_invalid (s : String) (db : DB)
    (hp : parseIntJS s = none) :
    deleteContact s db = (⟨400, errObj "Invalid ID"⟩, db) := by
  simp [deleteContact, hp]

theorem deleteContact_found (s : String) (db : DB) (n : Int)
    (hp : parseIntJS s = some n)
    (hm : db.contacts.any (matchesId n) = true) :
    deleteContact s db =
      (⟨200, .obj [("message", .str "Contact deleted successfully")]⟩,
       { db with contacts := deleteFirst (matchesId n) db.contacts }) := by
  simp [deleteContact, hp, hm]

theorem deleteContact_notFound (s : String) (db : DB) (n : Int)
    (hp : parseIntJS s = some n)
    (hm : db.contacts.any (matchesId n) = false) :
    deleteContact s db = (⟨404, errObj "Contact not found"⟩, db) := by
  simp [deleteContact, hp, hm]

theorem deleteContact_counters (s : String) (db : DB) :
    (deleteContact s db).2.counters = db.counters := by
  rw [deleteContact]
  split
  · rfl
  · split <;> rfl

/-- The falsy-field condition tested by the create handler. -/
theorem createContact_eq_of_missing (b : Doc) (db : DB)
    (h : (!truthyOpt (docGet b "firstName") || !truthyOpt (docGet b "lastName")
        || !truthyOpt (docGet b "email") || !truthyOpt (docGet b "favoriteColor")
        || !truthyOpt (docGet b "birthday")) = true) :
    createContact b db = (⟨400, errObj "All fields are required"⟩, db) := by
  simp only [createContact]
  rw [if_pos h]

theorem createContact_eq_of_ok (b : Doc) (db : DB)
    (h : (!truthyOpt (docGet b "firstName") || !truthyOpt (docGet b "lastName")
        || !truthyOpt (docGet b "email") || !truthyOpt (docGet b "favoriteColor")
        || !truthyOpt (docGet b "birthday")) = false) :
    createContact b db =
      (⟨201, .obj [("id", .num (counterValue db.counters "contacts" + 1))]⟩,
       { contacts := db.contacts ++
           [[("_id", .oid db.nextOid),
             ("id", .num (counterValue db.counters "contacts" + 1)),
             ("firstName", (docGet b "firstName").getD .null),
             ("lastName", (docGet b "lastName").getD .null),
             ("email", (docGet b "email").getD .null),
             ("favoriteColor", (docGet b "favoriteColor").getD .null),
             ("birthday", (docGet b "birthday").getD .null)]],
         counters := bumpCounter db.counters "contacts",
         nextOid := db.nextOid + 1 }) := by
  simp only [createContact]
  rw [if_neg (by simp [h]), getNextSequence_eq]

/-! The 201 responses of a run carry strictly increasing ids. -/

theorem createdId_createContact (b : Doc) (db : DB) (n : Int)
    (h : createdId (createContact b db).1 = some n) :
    n = counterValue (createContact b db).2.counters "contacts" ∧
      counterValue db.counters "contacts" < n := by
  by_cases hc : (!truthyOpt (docGet b "firstName") || !truthyOpt (docGet b "lastName")
      || !truthyOpt (docGet b "email") || !truthyOpt (docGet b "favoriteColor")
      || !truthyOpt (docGet b "birthday")) = true
  · rw [createContact_eq_of_missing b db hc] at h
    simp [createdId] at h
  · rw [Bool.not_eq_true] at hc
    rw [createContact_eq_of_ok b db hc] at h ⊢
    simp only [createdId] at h
    rw [Option.some_inj] at h
    subst h
    refine ⟨?_, by omega⟩
    rw [counterValue_bumpCounter]

theorem counter_createContact_mono (b : Doc) (db : DB) :
    counterValue db.counters "contacts"
      ≤ counterValue (createContact b db).2.counters "contacts" := by
  by_cases hc : (!truthyOpt (docGet b "firstName") || !truthyOpt (docGet b "lastName")
      || !truthyOpt (docGet b "email") || !truthyOpt (docGet b "favoriteColor")
      || !truthyOpt (docGet b "birthday")) = true
  · rw [createContact_eq_of_missing b db hc]
  · rw [Bool.not_eq_true] at hc
    rw [createContact_eq_of_ok b db hc]
    rw [counterValue_bumpCounter]
    omega

theorem counter_step_mono (db : DB) (op : Op) :
    counterValue db.counters "contacts"
      ≤ counterValue (step db op).2.counters "contacts" := by
  cases op with
  | getAll => exact le_refl _
  | getOne s => rw [step, getContactById_snd]
  | create b => exact counter_createContact_mono b db
  | update s b => rw [step, updateContact_counters]
  | remove s => rw [step, deleteContact_counters]

theorem createdId_step (db : DB) (op : Op) (n : Int)
    (h : createdId (step db op).1 = some n) :
    n = counterValue (step db op).2.counters "contacts" ∧
      counterValue db.counters "contacts" < n := by
  cases op with
  | getAll => simp [step, getAllContacts, createdId] at h
  | getOne s =>
    rcases hp : parseIntJS s with _ | m
    · rw [step, getContactById_invalid s db hp] at h
      simp [createdId, errObj] at h
    · rcases hf : db.contacts.find? (matchesId m) with _ | c
      · rw [step, getContactById_notFound s db m hp hf] at h
        simp [createdId, errObj] at h
      · rw [step, getContactById_found s db m c hp hf] at h
        simp [createdId] at h
  | create b => exact createdId_createContact b db n h
  | update s b =>
    rcases hp : parseIntJS s with _ | m
    · rw [step, updateContact_invalid s b db hp] at h
      simp [createdId, errObj] at h
    · rcases hf : db.contacts.find? (matchesId m) with _ | c
      · rw [step, updateContact_notFound s b db m hp hf] at h
        simp [createdId, errObj] at h
      · cases he : (removeKey (removeKey b "id") "_id").isEmpty with
        | true =>
          rw [step, updateContact_emptySet s b db m c hp hf he] at h
          simp [createdId, errObj] at h
        | false =>
          rcases hf2 : (updateFirst (matchesId m)
              (fun d => setFields d (removeKey (removeKey b "id") "_id"))
              db.contacts).find? (matchesId m) with _ | c2
          · rw [step, updateContact_found_vanished s b db m c hp hf he hf2] at h
            simp [createdId] at h
          · rw [step, updateContact_found s b db m c c2 hp hf he hf2] at h
            simp [createdId] at h
  | remove s =>
    rcases hp : parseIntJS s with _ | m
    · rw [step, deleteContact_invalid s db hp] at h
      simp [createdId, errObj] at h
    · cases hm : db.contacts.any (matchesId m) with
      | true =>
        rw [step, deleteContact_found s db m hp hm] at h
        simp [createdId] at h
      | false =>
        rw [step, deleteContact_notFound s db m hp hm] at h
        simp [createdId, errObj] at h

theorem chain'_lt_of_forall (n : Int) (l : List Int)
    (hl : List.Chain' (fun a b => a < b) l) (h : ∀ m ∈ l, n < m) :
    List.Chain' (fun a b => a < b) (n :: l) := by
  cases l with
  | nil => simp
  | cons x xs => exact List.chain'_cons.2 ⟨h x (by simp), hl⟩

theorem counter_run_mono (ops : List Op) : ∀ db : DB,
    counterValue db.counters "contacts"
      ≤ counterValue (run db ops).2.counters "contacts" := by
  induction ops with
  | nil => intro db; exact le_refl _
  | cons op ops ih =>
    intro db
    rw [run]
    exact le_trans (counter_step_mono db op) (ih (step db op).2)

theorem createdIds_run (ops : List Op) : ∀ db : DB,
    List.Chain' (fun a b => a < b) (createdIds (run db ops).1) ∧
    ∀ m ∈ createdIds (run db ops).1,
      counterValue db.counters "contacts" < m ∧
        m ≤ counterValue (run db ops).2.counters "contacts" := by
  induction ops with
  | nil => intro db; simp [run, createdIds]
  | cons op ops ih =>
    intro db
    rw [run]
    show List.Chain' _ (createdIds ((step db op).1 :: (run (step db op).2 ops).1)) ∧ _
    rw [createdIds, List.filterMap_cons]
    rcases hcid : createdId (step db op).1 with _ | n
    · refine ⟨(ih (step db op).2).1, ?_⟩
      intro m hm
      rcases (ih (step db op).2).2 m hm with ⟨h1, h2⟩
      exact ⟨lt_of_le_of_lt (counter_step_mono db op) h1, h2⟩
    · rcases createdId_step db op n hcid with ⟨hn, hgt⟩
      refine ⟨chain'_lt_of_forall n _ (ih (step db op).2).1 ?_, ?_⟩
      · intro m hm
        rcases (ih (step db op).2).2 m hm with ⟨h1, _⟩
        omega
      · intro m hm
        rcases List.mem_cons.1 hm with rfl | hm
        · exact ⟨hgt, hn ▸ counter_run_mono ops (step db op).2⟩
        · rcases (ih (step db op).2).2 m hm with ⟨h1, h2⟩
          exact ⟨lt_of_le_of_lt (counter_step_mono db op) h1, h2⟩

/-! The claims. -/

/-- C1: a GET on the id path whose id does not parse as a number (parseInt
yields NaN) answers 400 with an error-string body, and the database state
is unchanged, so no contact is returned. -/
theorem c1_nonNumericId_get_400 (s : String) (db : DB)
    (h : parseIntJS s = none) :
    (getContactById s db).1.status = 400 ∧
    (∃ msg, (getContactById s db).1.body = errObj msg) ∧
    (getContactById s db).2 = db := by
  rw [getContactById_invalid s db h]
  exact ⟨rfl, ⟨"Invalid ID", rfl⟩, rfl⟩

/-- C1 witness: the id string abc does not parse, so the handler answers
400 on the empty database. -/
theorem c1_witness :
    (getContactById "abc" emptyDB).1.status = 400 ∧
    (∃ msg, (getContactById "abc" emptyDB).1.body = errObj msg) ∧
    (getContactById "abc" emptyDB).2 = emptyDB :=
  c1_nonNumericId_get_400 "abc" emptyDB (by decide)

/-- C5: for a numeric id, GET answers 404 with an error body and an
unchanged state when no stored contact has that id, and 200 with exactly
the stored matching contact when one exists. -/
theorem c5_get_by_id_cases (s : String) (db : DB) (n : Int)
    (hp : parseIntJS s = some n) :
    (db.contacts.find? (matchesId n) = none →
      getContactById s db = (⟨404, errObj "Contact not found"⟩, db)) ∧
    (∀ c, db.contacts.find? (matchesId n) = some c →
      getContactById s db = (⟨200, .obj c⟩, db)) :=
  ⟨fun hf => getContactById_notFound s db n hp hf,
   fun c hf => getContactById_found s db n c hp hf⟩

/-- C5 witness: instantiated on the singleton database at id 1 and the
empty database at id 1. -/
theorem c5_witness :
    (dbOne.contacts.find? (matchesId 1) = some docOne →
      getContactById "1" dbOne = (⟨200, .obj docOne⟩, dbOne)) ∧
    (emptyDB.contacts.find? (matchesId 1) = none →
      getContactById "1" emptyDB = (⟨404, errObj "Contact not found"⟩, emptyDB)) :=
  ⟨(c5_get_by_id_cases "1" dbOne 1 (by decide)).2 docOne,
   (c5_get_by_id_cases "1" emptyDB 1 (by decide)).1⟩

/-- C4: when ids are unique (at most one stored contact matches, the
spec's id-uniqueness invariant) and a DELETE succeeds with 200, repeating
the same DELETE answers 404 and leaves the state unchanged. -/
theorem c4_delete_twice_404 (s : String) (db : DB) (n : Int)
    (hp : parseIntJS s = some n)
    (huniq : db.contacts.countP (matchesId n) ≤ 1)
    (r : Response) (db' : DB)
    (hdel : deleteContact s db = (r, db'))
    (h200 : r.status = 200) :
    deleteContact s db' = (⟨404, errObj "Contact not found"⟩, db') := by
  cases hm : db.contacts.any (matchesId n) with
  | false =>
    rw [deleteContact_notFound s db n hp hm] at hdel
    injection hdel with h1 h2
    rw [← h1] at h200
    exact absurd h200 (by decide)
  | true =>
    rw [deleteContact_found s db n hp hm] at hdel
    injection hdel with h1 h2
    have hdb : db' = { db with contacts := deleteFirst (matchesId n) db.contacts } :=
      h2.symm
    have hany : db'.contacts.any (matchesId n) = false := by
      rw [hdb]
      exact any_deleteFirst (matchesId n) db.contacts huniq
    exact deleteContact_notFound s db' n hp hany

/-- C4 witness: deleting id 1 from the singleton database succeeds, and the
second delete answers 404. -/
theorem c4_witness :
    deleteContact "1" (deleteContact "1" dbOne).2 =
      (⟨404, errObj "Contact not found"⟩, (deleteContact "1" dbOne).2) :=
  c4_delete_twice_404 "1" dbOne 1 (by decide) (by decide)
    (deleteContact "1" dbOne).1 (deleteContact "1" dbOne).2 rfl (by decide)

/-- C2: a successful create returns 201 with the id drawn by the
find-and-increment on the counter document keyed by the collection name,
and across any run of requests the ids of the 201 responses strictly
increase in request order. -/
theorem c2_monotonic_ids :
    (∀ b db r db2, createContact b db = (r, db2) → r.status = 201 →
      r = ⟨201, .obj [("id", .num (counterValue db.counters "contacts" + 1))]⟩ ∧
      (getNextSequence "contacts" db).1 = counterValue db.counters "contacts" + 1 ∧
      db2.counters = bumpCounter db.counters "contacts") ∧
    (∀ db ops, List.Chain' (fun a b => a < b) (createdIds (run db ops).1)) := by
  constructor
  · intro b db r db2 hc h201
    by_cases hcond : (!truthyOpt (docGet b "firstName") || !truthyOpt (docGet b "lastName")
        || !truthyOpt (docGet b "email") || !truthyOpt (docGet b "favoriteColor")
        || !truthyOpt (docGet b "birthday")) = true
    · rw [createContact_eq_of_missing b db hcond] at hc
      injection hc with h1 h2
      rw [← h1] at h201
      exact absurd h201 (by decide)
    · rw [Bool.not_eq_true] at hcond
      rw [createContact_eq_of_ok b db hcond] at hc
      injection hc with h1 h2
      refine ⟨h1.symm, ?_, ?_⟩
      · rw [getNextSequence_eq]
      · rw [← h2]
  · intro db ops
    exact (createdIds_run ops db).1

/-- C2 witness: posting a complete body into the empty database returns id
1, which is the incremented counter value. -/
theorem c2_witness :
    (createContact goodBody emptyDB).1 =
      ⟨201, .obj [("id", .num (counterValue emptyDB.counters "contacts" + 1))]⟩ ∧
    (getNextSequence "contacts" emptyDB).1 =
      counterValue emptyDB.counters "contacts" + 1 ∧
    (createContact goodBody emptyDB).2.counters =
      bumpCounter emptyDB.counters "contacts" :=
  c2_monotonic_ids.1 goodBody emptyDB (createContact goodBody emptyDB).1
    (createContact goodBody emptyDB).2 rfl (by decide)

/-- After the put handler's updateOne, the first document matching the id
is the old one with the cleaned update document applied. -/
theorem find?_after_update (b : Doc) (db : DB) (n : Int) (c : Doc)
    (hf : db.contacts.find? (matchesId n) = some c) :
    (updateFirst (matchesId n)
      (fun d => setFields d (removeKey (removeKey b "id") "_id"))
      db.contacts).find? (matchesId n)
      = some (setFields c (removeKey (removeKey b "id") "_id")) := by
  have hpres : ∀ d, matchesId n d = true →
      matchesId n (setFields d (removeKey (removeKey b "id") "_id")) = true := by
    intro d hd
    rw [matchesId_setFields n d _ (id_not_mem_updateData b)]
    exact hd
  rw [find?_updateFirst _ _ _ hpres, hf]
  rfl

/-- The keys of the cleaned update document all come from the body. -/
theorem keys_updateData_subset (b : Doc) (k : String)
    (h : k ∈ (removeKey (removeKey b "id") "_id").map Prod.fst) :
    k ∈ b.map Prod.fst :=
  keys_removeKey_subset b "id" k
    (keys_removeKey_subset (removeKey b "id") "_id" k h)

/-- C3: updating an existing contact leaves its id field and its internal
identifier unchanged whatever the body supplies for them, and leaves every
field not supplied in the body unchanged. -/
theorem c3_put_preserves_identifiers (s : String) (b : Doc) (db : DB)
    (n : Int) (c : Doc) (hp : parseIntJS s = some n)
    (hf : db.contacts.find? (matchesId n) = some c) :
    ∃ c', (updateContact s b db).2.contacts.find? (matchesId n) = some c' ∧
      c' = setFields c (removeKey (removeKey b "id") "_id") ∧
      docGet c' "id" = docGet c "id" ∧
      docGet c' "_id" = docGet c "_id" ∧
      (∀ k, k ∉ b.map Prod.fst → docGet c' k = docGet c k) := by
  cases he : (removeKey (removeKey b "id") "_id").isEmpty with
  | true =>
    have hu : removeKey (removeKey b "id") "_id" = [] := by
      cases hl : removeKey (removeKey b "id") "_id" with
      | nil => rfl
      | cons p rest => rw [hl] at he; simp [List.isEmpty] at he
    rw [updateContact_emptySet s b db n c hp hf he, hu]
    exact ⟨c, hf, rfl, rfl, rfl, fun k hk => rfl⟩
  | false =>
    have hfind := find?_after_update b db n c hf
    rw [updateContact_found s b db n c _ hp hf he hfind]
    refine ⟨setFields c (removeKey (removeKey b "id") "_id"), hfind, rfl, ?_, ?_, ?_⟩
    · exact docGet_setFields_not_mem _ c "id" (id_not_mem_updateData b)
    · exact docGet_setFields_not_mem _ c "_id" (internal_id_not_mem_updateData b)
    · intro k hk
      exact docGet_setFields_not_mem _ c k (fun hmem => hk (keys_updateData_subset b k hmem))

/-- C3 witness: a put on the singleton database with a body that tries to
overwrite both identifiers. -/
theorem c3_witness :
    ∃ c', (updateContact "1" putBody dbOne).2.contacts.find? (matchesId 1) = some c' ∧
      c' = setFields docOne (removeKey (removeKey putBody "id") "_id") ∧
      docGet c' "id" = docGet docOne "id" ∧
      docGet c' "_id" = docGet docOne "_id" ∧
      (∀ k, k ∉ putBody.map Prod.fst → docGet c' k = docGet docOne k) :=
  c3_put_preserves_identifiers "1" putBody dbOne 1 docOne (by decide) (by decide)

/-- C7 counterexample: the contact with id 1 exists, yet a put whose body
carries nothing besides the two identifier keys is answered 500 (the
driver rejects the empty $set), not 200 as the claim states. -/
theorem c7_counterexample :
    dbOne.contacts.find? (matchesId 1) = some docOne ∧
    (updateContact "1" idOnlyBody dbOne).1.status = 500 ∧
    ¬(updateContact "1" idOnlyBody dbOne).1.status = 200 := by
  decide

/-- C7 amended: a put on an existing contact whose body still carries a
field after the id and internal-id keys are dropped answers 200 with the
stored contact after the update: the old document with every such body
field written over it, fields absent from the body staying as they were;
when nothing but the identifier keys is supplied, the driver rejects the
empty $set and the handler answers 500 with the error message, the state
unchanged. -/
theorem c7_put_result (s : String) (b : Doc) (db : DB) (n : Int) (c : Doc)
    (hp : parseIntJS s = some n)
    (hf : db.contacts.find? (matchesId n) = some c) :
    ((removeKey (removeKey b "id") "_id").isEmpty = false →
      updateContact s b db =
        (⟨200, .obj (setFields c (removeKey (removeKey b "id") "_id"))⟩,
         { db with contacts := (updateFirst (matchesId n)
             (fun d => setFields d (removeKey (removeKey b "id") "_id"))
             db.contacts) }) ∧
      (updateContact s b db).2.contacts.find? (matchesId n)
        = some (setFields c (removeKey (removeKey b "id") "_id")) ∧
      ((b.map Prod.fst).Nodup → ∀ k v, k ≠ "id" → k ≠ "_id" →
        docGet b k = some v →
        docGet (setFields c (removeKey (removeKey b "id") "_id")) k = some v) ∧
      (∀ k, k ∉ b.map Prod.fst →
        docGet (setFields c (removeKey (removeKey b "id") "_id")) k = docGet c k)) ∧
    ((removeKey (removeKey b "id") "_id").isEmpty = true →
      updateContact s b db = (⟨500, errObj emptySetMsg⟩, db)) := by
  constructor
  · intro he
    have hfind := find?_after_update b db n c hf
    have heq := updateContact_found s b db n c _ hp hf he hfind
    refine ⟨heq, by rw [heq]; exact hfind, ?_, ?_⟩
    · intro hnd k v hkid hkiid hbk
      have hsub : List.Sublist ((removeKey (removeKey b "id") "_id").map Prod.fst)
          (b.map Prod.fst) := by
        have h1 : List.Sublist (removeKey (removeKey b "id") "_id") (removeKey b "id") :=
          List.filter_sublist _
        have h2 : List.Sublist (removeKey b "id") b := List.filter_sublist _
        exact (h1.trans h2).map Prod.fst
      apply docGet_setFields_mem _ c k v (hnd.sublist hsub)
      rw [docGet_removeKey_ne _ _ _ hkiid, docGet_removeKey_ne _ _ _ hkid]
      exact hbk
    · intro k hk
      exact docGet_setFields_not_mem _ c k (fun hmem => hk (keys_updateData_subset b k hmem))
  · intro he
    exact updateContact_emptySet s b db n c hp hf he

/-- C7 witness: the put on the singleton database with a body still
carrying an email field returns the updated document and stores it. -/
theorem c7_witness :
    updateContact "1" putBody dbOne =
      (⟨200, .obj (setFields docOne (removeKey (removeKey putBody "id") "_id"))⟩,
       { dbOne with contacts := (updateFirst (matchesId 1)
           (fun d => setFields d (removeKey (removeKey putBody "id") "_id"))
           dbOne.contacts) }) ∧
    (updateContact "1" putBody dbOne).2.contacts.find? (matchesId 1)
      = some (setFields docOne (removeKey (removeKey putBody "id") "_id")) ∧
    ((putBody.map Prod.fst).Nodup → ∀ k v, k ≠ "id" → k ≠ "_id" →
      docGet putBody k = some v →
      docGet (setFields docOne (removeKey (removeKey putBody "id") "_id")) k = some v) ∧
    (∀ k, k ∉ putBody.map Prod.fst →
      docGet (setFields docOne (removeKey (removeKey putBody "id") "_id")) k
        = docGet docOne k) :=
  (c7_put_result "1" putBody dbOne 1 docOne (by decide) (by decide)).1 (by decide)

/-- C6 counterexample: a body with all five required fields present, one of
them the empty string, is rejected with 400 instead of the claimed 201. -/
theorem c6_counterexample :
    (∀ f ∈ requiredFields, f ∈ badBody.map Prod.fst) ∧
    (createContact badBody emptyDB).1.status = 400 ∧
    ¬(createContact badBody emptyDB).1.status = 201 := by
  decide

/-- C6 amended: a body missing any of the five required fields is rejected
with 400 and the state is unchanged; a body in which all five fields are
present with truthy values is accepted with 201 and the new id. -/
theorem c6_post_required_fields (b : Doc) (db : DB) :
    ((∃ f ∈ requiredFields, docGet b f = none) →
      createContact b db = (⟨400, errObj "All fields are required"⟩, db)) ∧
    ((∀ f ∈ requiredFields, truthyOpt (docGet b f) = true) →
      (createContact b db).1 =
        ⟨201, .obj [("id", .num (counterValue db.counters "contacts" + 1))]⟩) := by
  constructor
  · rintro ⟨f, hf, hnone⟩
    have ht : truthyOpt (docGet b f) = false := by rw [hnone]; rfl
    have hcases : f = "firstName" ∨ f = "lastName" ∨ f = "email"
        ∨ f = "favoriteColor" ∨ f = "birthday" := by
      simpa [requiredFields] using hf
    rcases hcases with rfl | rfl | rfl | rfl | rfl <;>
      exact createContact_eq_of_missing b db (by simp [ht])
  · intro hall
    have h1 := hall "firstName" (by simp [requiredFields])
    have h2 := hall "lastName" (by simp [requiredFields])
    have h3 := hall "email" (by simp [requiredFields])
    have h4 := hall "favoriteColor" (by simp [requiredFields])
    have h5 := hall "birthday" (by simp [requiredFields])
    rw [createContact_eq_of_ok b db (by simp [h1, h2, h3, h4, h5])]

/-- C6 witness: a body missing lastName is rejected; the complete body is
accepted with id 1. -/
theorem c6_witness :
    createContact missingBody emptyDB =
      (⟨400, errObj "All fields are required"⟩, emptyDB) ∧
    (createContact goodBody emptyDB).1 =
      ⟨201, .obj [("id", .num (counterValue emptyDB.counters "contacts" + 1))]⟩ :=
  ⟨(c6_post_required_fields missingBody emptyDB).1 ⟨"lastName", by decide, by decide⟩,
   (c6_post_required_fields goodBody emptyDB).2 (by decide)⟩

/-- C10: a required field that is present with a falsy value is rejected
with 400 exactly as when the field is absent, with the state unchanged in
both cases. -/
theorem c10_falsy_field_like_absent (b : Doc) (db : DB) (k : String)
    (v : JsonVal) (hk : k ∈ requiredFields) (hval : docGet b k = some v)
    (hfalsy : jsTruthy v = false) :
    createContact b db = (⟨400, errObj "All fields are required"⟩, db) ∧
    createContact (removeKey b k) db =
      (⟨400, errObj "All fields are required"⟩, db) := by
  have ht : truthyOpt (docGet b k) = false := by rw [hval]; exact hfalsy
  have ht2 : truthyOpt (docGet (removeKey b k) k) = false := by
    rw [docGet_removeKey_same]
    rfl
  have hcases : k = "firstName" ∨ k = "lastName" ∨ k = "email"
      ∨ k = "favoriteColor" ∨ k = "birthday" := by
    simpa [requiredFields] using hk
  rcases hcases with rfl | rfl | rfl | rfl | rfl <;>
    exact ⟨createContact_eq_of_missing _ _ (by simp [ht]),
      createContact_eq_of_missing _ _ (by simp [ht2])⟩

/-- C10 witness: the body with an empty firstName is rejected just like the
same body with firstName removed. -/
theorem c10_witness :
    createContact badBody emptyDB =
      (⟨400, errObj "All fields are required"⟩, emptyDB) ∧
    createContact (removeKey badBody "firstName") emptyDB =
      (⟨400, errObj "All fields are required"⟩, emptyDB) :=
  c10_falsy_field_like_absent badBody emptyDB "firstName" (.str "")
    (by decide) (by decide) (by decide)

/-- C8: on each of the five endpoints, every response outside the 2xx range
carries an error-string object body, and a thrown exception (including a
database error) yields 500 with the error message. -/
theorem c8_error_taxonomy (exc : Option String) (db : DB) (s : String) (b : Doc) :
    errorContract (respOf exc (getAllContacts db)) ∧
    errorContract (respOf exc (getContactById s db)) ∧
    errorContract (respOf exc (createContact b db)) ∧
    errorContract (respOf exc (updateContact s b db)) ∧
    errorContract (respOf exc (deleteContact s db)) ∧
    (∀ e, exc = some e →
      respOf exc (getAllContacts db) = ⟨500, errObj e⟩ ∧
      respOf exc (getContactById s db) = ⟨500, errObj e⟩ ∧
      respOf exc (createContact b db) = ⟨500, errObj e⟩ ∧
      respOf exc (updateContact s b db) = ⟨500, errObj e⟩ ∧
      respOf exc (deleteContact s db) = ⟨500, errObj e⟩) := by
  cases exc with
  | some e =>
    refine ⟨fun _ => ⟨e, rfl⟩, fun _ => ⟨e, rfl⟩, fun _ => ⟨e, rfl⟩,
      fun _ => ⟨e, rfl⟩, fun _ => ⟨e, rfl⟩, ?_⟩
    intro e' he
    injection he with he'
    subst he'
    exact ⟨rfl, rfl, rfl, rfl, rfl⟩
  | none =>
    refine ⟨?_, ?_, ?_, ?_, ?_, fun e he => by cases he⟩
    · intro h
      simp only [respOf, getAllContacts] at h ⊢
      omega
    · rcases hp : parseIntJS s with _ | m
      · rw [respOf, getContactById_invalid s db hp]
        exact fun _ => ⟨"Invalid ID", rfl⟩
      · rcases hf : db.contacts.find? (matchesId m) with _ | c
        · rw [respOf, getContactById_notFound s db m hp hf]
          exact fun _ => ⟨"Contact not found", rfl⟩
        · rw [respOf, getContactById_found s db m c hp hf]
          intro h
          simp only at h
          omega
    · by_cases hcond : (!truthyOpt (docGet b "firstName") || !truthyOpt (docGet b "lastName")
          || !truthyOpt (docGet b "email") || !truthyOpt (docGet b "favoriteColor")
          || !truthyOpt (docGet b "birthday")) = true
      · rw [respOf, createContact_eq_of_missing b db hcond]
        exact fun _ => ⟨"All fields are required", rfl⟩
      · rw [Bool.not_eq_true] at hcond
        rw [respOf, createContact_eq_of_ok b db hcond]
        intro h
        simp only at h
        omega
    · rcases hp : parseIntJS s with _ | m
      · rw [respOf, updateContact_invalid s b db hp]
        exact fun _ => ⟨"Invalid ID", rfl⟩
      · rcases hf : db.contacts.find? (matchesId m) with _ | c
        · rw [respOf, updateContact_notFound s b db m hp hf]
          exact fun _ => ⟨"Contact not found", rfl⟩
        · cases he : (removeKey (removeKey b "id") "_id").isEmpty with
          | true =>
            rw [respOf, updateContact_emptySet s b db m c hp hf he]
            exact fun _ => ⟨emptySetMsg, rfl⟩
          | false =>
            rcases hf2 : (updateFirst (matchesId m)
                (fun d => setFields d (removeKey (removeKey b "id") "_id"))
                db.contacts).find? (matchesId m) with _ | c2
            · rw [respOf, updateContact_found_vanished s b db m c hp hf he hf2]
              intro h
              simp only at h
              omega
            · rw [respOf, updateContact_found s b db m c c2 hp hf he hf2]
              intro h
              simp only at h
              omega
    · rcases hp : parseIntJS s with _ | m
      · rw [respOf, deleteContact_invalid s db hp]
        exact fun _ => ⟨"Invalid ID", rfl⟩
      · cases hm : db.contacts.any (matchesId m) with
        | true =>
          rw [respOf, deleteContact_found s db m hp hm]
          intro h
          simp only at h
          omega
        | false =>
          rw [respOf, deleteContact_notFound s db m hp hm]
          exact fun _ => ⟨"Contact not found", rfl⟩

/-- C8 witness: with an injected exception every endpoint answers 500 with
the message, and the 500 response satisfies the error-shape contract. -/
theorem c8_witness :
    (∃ m, (respOf (some "boom") (getAllContacts emptyDB)).body = errObj m) ∧
    respOf (some "boom") (deleteContact "1" emptyDB) = ⟨500, errObj "boom"⟩ := by
  have h := c8_error_taxonomy (some "boom") emptyDB "1" goodBody
  exact ⟨h.1 (by right; decide), (h.2.2.2.2.2 "boom" rfl).2.2.2.2⟩

/-- C9: the three id-indexed handlers treat any id string exactly like the
decimal representation of the integer parseInt extracts from it, and the
400 invalid-id response arises exactly when parseInt yields NaN. -/
theorem c9_parseInt_id_equivalence :
    (∀ s n db b, parseIntJS s = some n →
      getContactById s db = getContactById (intRepr n) db ∧
      updateContact s b db = updateContact (intRepr n) b db ∧
      deleteContact s db = deleteContact (intRepr n) db) ∧
    (∀ s db b, parseIntJS s = none →
      getContactById s db = (⟨400, errObj "Invalid ID"⟩, db) ∧
      updateContact s b db = (⟨400, errObj "Invalid ID"⟩, db) ∧
      deleteContact s db = (⟨400, errObj "Invalid ID"⟩, db)) := by
  constructor
  · intro s n db b h
    have hr : parseIntJS (intRepr n) = some n := parseIntJS_intRepr n
    refine ⟨?_, ?_, ?_⟩
    · rw [getContactById, getContactById, h, hr]
    · rw [updateContact, updateContact, h, hr]
    · rw [deleteContact, deleteContact, h, hr]
  · intro s db b h
    exact ⟨getContactById_invalid s db h, updateContact_invalid s b db h,
      deleteContact_invalid s db h⟩

/-- C9 witness: the id string 12abc behaves exactly like the id string 12
on all three handlers. -/
theorem c9_witness :
    getContactById "12abc" dbOne = getContactById (intRepr 12) dbOne ∧
    updateContact "12abc" putBody dbOne = updateContact (intRepr 12) putBody dbOne ∧
    deleteContact "12abc" dbOne = deleteContact (intRepr 12) dbOne :=
  c9_parseInt_id_equivalence.1 "12abc" 12 dbOne putBody (by decide)
